import Mathlib

/-!
A shallow embedding of the HITL (human-in-the-loop) review backend of the
healthcare-email-defense server: the field extractors, the pending-queue
enrichment, the verdict-resolution endpoint, the metrics aggregation and the
queue stats computation, together with theorems settling the specification
claims about them.

Decision-log records are loosely-typed JSON documents; we model them with the
inductive type `JVal`, where the extra constructor `undefined` stands for
JavaScript's `undefined` (the result of reading an absent property), so that
optional-chaining reads compose as plain reads.
-/

namespace EmailDefense

/-- JSON-like values as manipulated by the server.  Numbers are modelled as
rationals (JavaScript numerics with exact arithmetic; no NaN/Infinity, which
the records do not contain). -/
inductive JVal where
  | undefined : JVal
  | null : JVal
  | bool : Bool → JVal
  | num : Rat → JVal
  | str : String → JVal
  | arr : List JVal → JVal
  | obj : List (String × JVal) → JVal

/-- First-match lookup in an object's field list. -/
def getA : List (String × JVal) → String → JVal
  | [], _ => .undefined
  | (k', v) :: rest, k => if k' = k then v else getA rest k

/-- Property read, `doc.k`: `undefined` on absent keys and on non-objects
(as under JavaScript optional chaining `doc?.k`). -/
def getF : JVal → String → JVal
  | .obj fs, k => getA fs k
  | _, _ => .undefined

/-- JavaScript truthiness. -/
def truthy : JVal → Bool
  | .undefined => false
  | .null => false
  | .bool b => b
  | .num q => q != 0
  | .str s => s != ""
  | .arr _ => true
  | .obj _ => true

/-- JavaScript `a || b`. -/
def jsOr (a b : JVal) : JVal := if truthy a then a else b

/-- Replace the value at a key, keeping its position, or append the key
(JavaScript property assignment on an object). -/
def setA : List (String × JVal) → String → JVal → List (String × JVal)
  | [], k, v => [(k, v)]
  | (k', v') :: rest, k, v =>
      if k' = k then (k, v) :: rest else (k', v') :: setA rest k v

/-- Property assignment `doc.k = v`: the identity on non-objects (JavaScript
silently ignores property writes on primitives). -/
def setF : JVal → String → JVal → JVal
  | .obj fs, k, v => .obj (setA fs k v)
  | j, _, _ => j

/-- Fold of property assignments, the effect of `{...item, k1: v1, ...}`. -/
def setFields (j : JVal) (fs : List (String × JVal)) : JVal :=
  fs.foldl (fun acc kv => setF acc kv.1 kv.2) j

def isObjB : JVal → Bool
  | .obj _ => true
  | _ => false

/-- Element conversion performed by `Array.prototype.join`: `null` and
`undefined` become the empty string, primitives are stringified.  (Nested
arrays and objects, which the decision records' reasoning lists do not
contain, are approximated.) -/
def joinElem : JVal → String
  | .str s => s
  | .null => ""
  | .undefined => ""
  | .bool true => "true"
  | .bool false => "false"
  | .num q => toString q
  | .arr _ => ""
  | .obj _ => "[object Object]"

/-- JavaScript `xs.join("\n\n")` — the blank-line join used for reasoning
lists. -/
def joinBlank (xs : List JVal) : String :=
  String.intercalate "\n\n" (xs.map joinElem)

/-- part_006 lines 91-103: pull a PHI-scrubbed body preview for UI display. -/
def extractBodyPreview (doc : JVal) : JVal :=
  if truthy doc = false then .null
  else if truthy (getF doc "compact") &&
          isStrB (getF (getF doc "compact") "body_preview") then
    getF (getF doc "compact") "body_preview"
  else if isStrB (getF doc "body_preview") then
    getF doc "body_preview"
  else if truthy (getF doc "compact") &&
          isStrB (getF (getF doc "compact") "body") then
    getF (getF doc "compact") "body"
  else .null
where
  isStrB : JVal → Bool
    | .str _ => true
    | _ => false

/-- part_006 lines 144-152, the shared tail of `extractReasoning`:
candidates 5 (top-level `explanation`) and 6 (legacy `decision_reasons`). -/
def reasoningTail (doc : JVal) : JVal :=
  match getF doc "explanation" with
  | .str s => .str s
  | _ =>
    match getF doc "decision_reasons" with
    | .arr rs => .str (joinBlank rs)
    | _ => .null

/-- part_006 lines 131-142, candidate 4 of `extractReasoning` (the decision
agent), falling through to `reasoningTail` — the continuation after the
`if (doc.decision_agent)` block. -/
def reasoningFrom4 (doc : JVal) : JVal :=
  if truthy (getF doc "decision_agent") then
    match getF (getF doc "decision_agent") "reasoning" with
    | .str s => .str s
    | _ =>
      match getF (getF doc "decision_agent") "explanation" with
      | .str s => .str s
      | _ =>
        match getF (getF doc "decision_agent") "reasons" with
        | .arr rs => .str (joinBlank rs)
        | _ => reasoningTail doc
  else reasoningTail doc

/-- part_006 lines 126-129, candidate 3 of `extractReasoning`
(`summary.reasoning`), falling through to the decision agent. -/
def reasoningFrom3 (doc : JVal) : JVal :=
  match (if truthy (getF doc "summary")
         then getF (getF doc "summary") "reasoning" else .undefined) with
  | .str s => .str s
  | _ => reasoningFrom4 doc

/-- part_006 lines 122-124, candidate 2 of `extractReasoning` (top-level
`reasoning`, string or joined list), falling through to the summary. -/
def reasoningFrom2 (doc : JVal) : JVal :=
  match getF doc "reasoning" with
  | .str s => .str s
  | .arr rs => .str (joinBlank rs)
  | _ => reasoningFrom3 doc

/-- part_006 lines 108-153: pull the best-available reasoning text from a
decision record, trying the candidate shapes in order.  The JavaScript
early-return chain is rendered as the continuation defs above. -/
def extractReasoning (doc : JVal) : JVal :=
  if truthy doc = false then .null else
  -- 1. Content Analysis Reasoning (Highest Priority)
  let step1 : Option JVal :=
    if truthy (getF doc "content") then
      match getF (getF doc "content") "notes" with
      | .arr (primaryNote :: _) =>
        match getF primaryNote "reasoning" with
        | .arr rs => some (.str (joinBlank rs))
        | .str s => some (.str s)
        | _ => none
      | _ => none
    else none
  match step1 with
  | some r => r
  | none => reasoningFrom2 doc

/-- A string-valued candidate: present iff the value is a string. -/
def strCand : JVal → Option String
  | .str s => some s
  | _ => none

/-- A list-valued candidate, joined with the blank-line separator. -/
def joinCand : JVal → Option String
  | .arr rs => some (joinBlank rs)
  | _ => none

/-- First present value of an ordered candidate list. -/
def firstSome : List (Option String) → Option String
  | [] => none
  | some s :: _ => some s
  | none :: rest => firstSome rest

/-- Candidate 1 of the specification's reasoning order: the `reasoning` field
of the first element of the content-notes array, joined with the blank-line
separator when it is itself a list. -/
def cand1 (doc : JVal) : Option String :=
  match getF (getF doc "content") "notes" with
  | .arr (n :: _) =>
      firstSome [joinCand (getF n "reasoning"), strCand (getF n "reasoning")]
  | _ => none

/-- Candidate 2: top-level `reasoning`, string or joined list. -/
def cand2 (doc : JVal) : Option String :=
  firstSome [strCand (getF doc "reasoning"), joinCand (getF doc "reasoning")]

/-- Candidate 3: `summary.reasoning`. -/
def cand3 (doc : JVal) : Option String :=
  strCand (getF (getF doc "summary") "reasoning")

/-- Candidate 4: decision-agent `reasoning`, then `explanation`, then joined
`reasons`. -/
def cand4 (doc : JVal) : Option String :=
  firstSome
    [ strCand (getF (getF doc "decision_agent") "reasoning")
    , strCand (getF (getF doc "decision_agent") "explanation")
    , joinCand (getF (getF doc "decision_agent") "reasons") ]

/-- Candidate 5: top-level `explanation`. -/
def cand5 (doc : JVal) : Option String :=
  strCand (getF doc "explanation")

/-- Candidate 6: the legacy joined `decision_reasons` list. -/
def cand6 (doc : JVal) : Option String :=
  joinCand (getF doc "decision_reasons")

/-- The reasoning-text extraction as the specification words it: the first
present value of the ordered candidate list. -/
def reasoningSpec (doc : JVal) : Option String :=
  firstSome [cand1 doc, cand2 doc, cand3 doc, cand4 doc, cand5 doc, cand6 doc]

/-- Option-to-JVal rendering of the specification's result: a found reasoning
string, else null. -/
def reasoningOut : Option String → JVal
  | some s => .str s
  | none => .null

/-! ## Stats engine (`GET /api/hitl/stats`, part_006 lines 981-1064)

A queue-table row as the stats loop reads it.  `status` holds
`item.status || ""`; `decision` and `verdict` are the raw optional string
attributes; timestamps are UTC epoch seconds, `none` standing for an absent or
dayjs-invalid value (the code's `item.x ? dayjs(item.x) : null` plus
`isValid()` check collapse to this). -/

structure QueueRow where
  status : String
  decision : Option String
  verdict : Option String
  created_ts : Option Int
  resolved_ts : Option Int

structure StatsAcc where
  pending : Nat
  reviewedToday : Nat
  totalResolved : Nat
  agreements : Nat
  totalDurationSec : Int

def statsAccInit : StatsAcc :=
  { pending := 0, reviewedToday := 0, totalResolved := 0, agreements := 0
  , totalDurationSec := 0 }

/-- One iteration of the stats scan loop over a queue row.  `today` is the
current UTC calendar day (as an epoch-day index; the code compares
`YYYY-MM-DD` day strings, which for valid timestamps is day equality). -/
def statsStep (today : Int) (acc : StatsAcc) (item : QueueRow) : StatsAcc :=
  let status := item.status
  -- 1. Pending Count
  if status = "pending" then { acc with pending := acc.pending + 1 }
  -- 2. Filter for Resolved
  else if status != "resolved" then acc
  else
    let acc := { acc with totalResolved := acc.totalResolved + 1 }
    -- 3. Reviewed Today, and 4. Avg Review Time
    let acc :=
      match item.resolved_ts with
      | some rts =>
        let acc :=
          if Int.fdiv rts 86400 = today then
            { acc with reviewedToday := acc.reviewedToday + 1 }
          else acc
        match item.created_ts with
        | some cts =>
          let diff := rts - cts
          if diff > 0 then
            { acc with totalDurationSec := acc.totalDurationSec + diff }
          else acc
        | none => acc
      | none => acc
    -- 5. Accuracy (AI Decision vs Human Verdict)
    -- `(item.decision || "").toUpperCase()` / `(item.verdict || "").toLowerCase()`
    -- (ASCII case mapping, rendered as a per-character map)
    let aiDec := String.mk ((item.decision.getD "").data.map Char.toUpper)
    let humDec := String.mk ((item.verdict.getD "").data.map Char.toLower)
    let agreed := (aiDec = "ALLOW" && humDec = "allow") ||
                  (aiDec = "QUARANTINE" && humDec = "block")
    if agreed then { acc with agreements := acc.agreements + 1 } else acc

structure StatsResp where
  pending : Nat
  reviewedToday : Nat
  accuracy : Rat
  avgTimeSeconds : Rat

/-- The full stats computation: scan every queue row once, then derive
`accuracy = agreements / totalResolved` and
`avgTimeSeconds = totalDurationSec / totalResolved`, both 0 when there are no
resolved rows. -/
def hitlStats (today : Int) (items : List QueueRow) : StatsResp :=
  let a := items.foldl (statsStep today) statsAccInit
  { pending := a.pending
  , reviewedToday := a.reviewedToday
  , accuracy :=
      if a.totalResolved > 0 then (a.agreements : Rat) / (a.totalResolved : Rat)
      else 0
  , avgTimeSeconds :=
      if a.totalResolved > 0 then
        (a.totalDurationSec : Rat) / (a.totalResolved : Rat)
      else 0 }

/-! ## Metrics aggregation (`GET /api/metrics`, part_006 lines 483-591) -/

/-- A listed decision-log object: its S3 key, its parsed JSON body, and the
UTC day of its `LastModified` date (the fallback timestamp). -/
structure S3Obj where
  key : String
  body : JVal
  lastModifiedDay : Int

structure MetricsAcc where
  total : Nat
  quarantined : Nat
  it_review : Nat
  allow : Nat
  errors : Nat
  phiDetected : Nat
  elapsedSum : Rat
  classificationDist : List (String × Nat)
  dailyCounts : List (Int × Nat)

/-- Increment the count at a key, appending the key when absent
(`dist[cls] = (dist[cls] || 0) + 1`). -/
def incDist : List (String × Nat) → String → List (String × Nat)
  | [], k => [(k, 1)]
  | (k', n) :: rest, k =>
      if k' = k then (k', n + 1) :: rest else (k', n) :: incDist rest k

/-- Increment the count at a key only when the key is present
(`if (counts.hasOwnProperty(key)) counts[key]++`). -/
def bumpIfPresent : List (Int × Nat) → Int → List (Int × Nat)
  | [], _ => []
  | (k', n) :: rest, k =>
      if k' = k then (k', n + 1) :: rest else (k', n) :: bumpIfPresent rest k

def isStrEq (v : JVal) (s : String) : Bool :=
  match v with
  | .str t => t = s
  | _ => false

/-- One iteration of the metrics scan over a listed object.  `parseDay`
abstracts dayjs string-timestamp parsing to a UTC day (`none` = invalid);
record timestamps are strings, the `LastModified` fallback is always a valid
date. -/
def metricsStep (parseDay : String → Option Int) (acc : MetricsAcc)
    (o : S3Obj) : MetricsAcc :=
  if o.key.endsWith ".json" = false then acc else
  let body := o.body
  let acc := { acc with total := acc.total + 1 }
  let acc :=
    match getF body "elapsed_ms" with
    | .num q => { acc with elapsedSum := acc.elapsedSum + q }
    | _ => acc
  let acc :=
    let dCode := getF body "decision"
    if isStrEq dCode "ALLOW" then { acc with allow := acc.allow + 1 }
    else if isStrEq dCode "IT_REVIEW" then
      { acc with it_review := acc.it_review + 1 }
    else if isStrEq dCode "QUARANTINE" then
      { acc with quarantined := acc.quarantined + 1 }
    else acc
  let acc :=
    match getF (getF body "phi") "entities_detected" with
    | .num q => if q > 0 then { acc with phiDetected := acc.phiDetected + 1 } else acc
    | _ => acc
  let cls := jsOr (getF (getF body "summary") "classification") (.str "unknown")
  let acc := { acc with classificationDist := incDist acc.classificationDist (joinElem cls) }
  let acc :=
    let sc := getF body "statusCode"
    if truthy sc && !(match sc with | .num q => q = 200 | _ => false) then
      { acc with errors := acc.errors + 1 }
    else acc
  -- Trend Logic
  let dateKey : Option Int :=
    match jsOr (getF body "timestamp") (getF (getF body "compact") "date_iso") with
    | .str s => parseDay s
    | _ => some o.lastModifiedDay
  match dateKey with
  | some dk => { acc with dailyCounts := bumpIfPresent acc.dailyCounts dk }
  | none => acc

structure MetricsResp where
  total : Nat
  quarantined : Nat
  it_review : Nat
  allow : Nat
  errors : Nat
  phiDetected : Nat
  avgElapsed : Rat
  classificationDist : List (String × Nat)
  trend : List (Int × Nat)

/-- The UTC days of the lookback window, oldest first, matching the
`for (i = windowDays-1; i >= 0; i--)` seeding loop. -/
def windowDaysList (windowDays : Nat) (now : Int) : List Int :=
  ((List.range windowDays).reverse).map (fun (i : Nat) => now - (i : Int))

/-- The metrics aggregation over a `windowDays`-day lookback ending at the UTC
day `now`: the per-day trend counters are pre-seeded with zero for every day
of the window, `objs` is the concatenation, in scan order, of the listings of
the window's day partitions, and the average elapsed time divides by the total
only when it is nonzero. -/
def apiMetrics (parseDay : String → Option Int) (windowDays : Nat) (now : Int)
    (objs : List S3Obj) : MetricsResp :=
  let init : MetricsAcc :=
    { total := 0, quarantined := 0, it_review := 0, allow := 0, errors := 0
    , phiDetected := 0, elapsedSum := 0, classificationDist := []
    , dailyCounts := (windowDaysList windowDays now).map (fun d => (d, 0)) }
  let a := objs.foldl (metricsStep parseDay) init
  { total := a.total, quarantined := a.quarantined, it_review := a.it_review
  , allow := a.allow, errors := a.errors, phiDetected := a.phiDetected
  , avgElapsed := if a.total ≠ 0 then a.elapsedSum / (a.total : Rat) else 0
  , classificationDist := a.classificationDist
  , trend := a.dailyCounts }

/-! ## History PHI field resolution (`GET /api/history`, part_006 line 669) -/

/-- The PHI-entity count of a history row:
`const phiEntities = body.phi?.entities_detected || 0;`. -/
def phiEntities (body : JVal) : JVal :=
  jsOr (getF (getF body "phi") "entities_detected") (.num 0)

/-! ## Verdict resolution (`POST /api/hitl/:id/verdict`, part_006 lines
367-477, with the learning hook of lines 224-259) -/

def strTruthy : Option String → Bool
  | none => false
  | some s => s != ""

/-- JavaScript `a || b` on an optional string attribute with a string
default. -/
def orTruthy (a : Option String) (b : String) : String :=
  match a with
  | some s => if s != "" then s else b
  | none => b

/-- The membership test `["allow", "block"].includes(verdict)`. -/
def allowOrBlock (verdict : Option String) : Bool :=
  verdict == some "allow" || verdict == some "block"

/-- The DynamoDB queue item, restricted to the attributes the verdict endpoint
and the learning hook read. -/
structure QueueItem where
  id : String
  log_bucket : Option String
  log_key : Option String
  from_addr : Option String
  fromField : Option String
  from_domain : Option String
  run_id : Option String

structure FeedbackEntry where
  pk : String
  sk : String
  verdict : String
  actor : String
  run_id : String
  from_addr : String
  from_domain : String
  created_ts : String
  trust_tier : String
  log_bucket : Option String
  log_key : Option String

/-- part_006 lines 224-259 (`applyLearningFromVerdict`): the feedback item
derived from the pre-update queue item and the verdict.  (`item.from` is the
`fromField` attribute of the model.) -/
def mkFeedback (item : QueueItem) (verdict actor ts : String) : FeedbackEntry :=
  let fromAddr := orTruthy item.from_addr (orTruthy item.fromField "")
  let fromDomain :=
    orTruthy item.from_domain
      (if (fromAddr.splitOn "@").length > 1 then
         ((fromAddr.splitOn "@").getD 1 "")
       else "unknown")
  { pk := "domain#" ++ fromDomain
  , sk := "verdict#" ++ ts
  , verdict := verdict
  , actor := actor
  , run_id := orTruthy item.run_id (orTruthy (some item.id) "")
  , from_addr := fromAddr
  , from_domain := fromDomain
  , created_ts := ts
  , trust_tier := if verdict = "allow" then "trusted" else "blocked"
  , log_bucket := if strTruthy item.log_bucket then item.log_bucket else none
  , log_key := if strTruthy item.log_key then item.log_key else none }

/-- part_006 lines 428-444: the replacement `hitl` sub-object and the
read-modify-write patch applied to the fetched decision-log document. -/
def mkNewHitl (actorName verdict notes ts : String) : JVal :=
  .obj [ ("status", .str "resolved"), ("actor", .str actorName)
       , ("verdict", .str verdict), ("notes", .str notes), ("ts", .str ts) ]

def patchLogDoc (doc newHitl : JVal) (ts : String) : JVal :=
  let d1 := setF doc "hitl" newHitl
  let d2 :=
    let da := getF d1 "decision_agent"
    if truthy da && truthy (getF da "hitl") then
      setF d1 "decision_agent" (setF da "hitl" newHitl)
    else d1
  let q0 := jsOr (getF d2 "queue") (.obj [])
  let q1 := setF q0 "status" (.str "resolved")
  let q2 := setF q1 "resolved_ts" (.str ts)
  setF d2 "queue" q2

/-- The store operations the endpoint can attempt, in attempt order. -/
inductive StoreOp where
  | ddbGet : String → StoreOp
  | ddbUpdate : String → StoreOp
  | s3Get : String → String → StoreOp
  | s3Put : String → String → StoreOp
  | ddbPutFeedback : StoreOp

/-- Outcomes the external stores return to each call of the endpoint; an
`Except.error` / `false` models the call throwing (connection failure, missing
object, or unparseable JSON for the S3 read). -/
structure VerdictEnv where
  queueGet : Except Unit (Option QueueItem)
  queueUpdateOk : Bool
  s3GetDoc : Except Unit JVal
  s3PutOk : Bool
  feedbackOk : Bool

/-- The attribute values written by the step-2 `dynamo.update`. -/
structure QueueUpdate where
  id : String
  status : String
  verdict : String
  actor : String
  notes : String
  resolved_ts : String

/-- The JSON response envelope of the endpoint (fields absent from a branch's
response are `none`). -/
structure VerdictResponse where
  httpStatus : Nat
  success : Bool
  error : Option String
  id : Option String
  status : Option String
  verdict : Option String
  actor : Option String
  s3Updated : Option Bool
  s3Location : Option (String × String)

def errorResponse (code : Nat) (msg : String) : VerdictResponse :=
  { httpStatus := code, success := false, error := some msg, id := none
  , status := none, verdict := none, actor := none, s3Updated := none
  , s3Location := none }

/-- The endpoint's observable outcome: the HTTP response, the store calls
attempted (in order), and the writes that actually landed. -/
structure VerdictOutcome where
  response : VerdictResponse
  trace : List StoreOp
  queueWrite : Option QueueUpdate
  s3Write : Option (String × String × JVal)
  feedbackWrite : Option FeedbackEntry

/-- part_006 lines 367-477: apply a human verdict to queue item `id`.
`verdict`, `actor`, `notes` are the request-body fields (absent = `none`);
`ts` is `new Date().toISOString()`.  Store failures after a successful step-2
queue update fall through to the surrounding catch (HTTP 500) without rolling
the update back; the feedback write has its own catch and never fails the
request. -/
def postVerdict (env : VerdictEnv) (id : String)
    (verdict actor notes : Option String) (ts : String) : VerdictOutcome :=
  if !(strTruthy verdict) || !(allowOrBlock verdict) then
    { response := errorResponse 400 "verdict must be \x22allow\x22 or \x22block\x22"
    , trace := [], queueWrite := none, s3Write := none, feedbackWrite := none }
  else
    let v := verdict.getD ""
    let actorName := orTruthy actor "unknown"
    match env.queueGet with
    | .error _ =>
      { response := errorResponse 500 "Failed to apply verdict"
      , trace := [.ddbGet id], queueWrite := none, s3Write := none
      , feedbackWrite := none }
    | .ok none =>
      { response := errorResponse 404 "Queue item not found"
      , trace := [.ddbGet id], queueWrite := none, s3Write := none
      , feedbackWrite := none }
    | .ok (some item) =>
      if env.queueUpdateOk = false then
        { response := errorResponse 500 "Failed to apply verdict"
        , trace := [.ddbGet id, .ddbUpdate id], queueWrite := none
        , s3Write := none, feedbackWrite := none }
      else
        let qw : QueueUpdate :=
          { id := id, status := "resolved", verdict := v, actor := actorName
          , notes := orTruthy notes "", resolved_ts := ts }
        let okResponse (s3Updated : Bool) (loc : Option (String × String)) :
            VerdictResponse :=
          { httpStatus := 200, success := true, error := none, id := some id
          , status := some "resolved", verdict := some v
          , actor := some actorName, s3Updated := some s3Updated
          , s3Location := loc }
        if strTruthy item.log_bucket && strTruthy item.log_key then
          let b := item.log_bucket.getD ""
          let k := item.log_key.getD ""
          match env.s3GetDoc with
          | .error _ =>
            { response := errorResponse 500 "Failed to apply verdict"
            , trace := [.ddbGet id, .ddbUpdate id, .s3Get b k]
            , queueWrite := some qw, s3Write := none, feedbackWrite := none }
          | .ok doc =>
            let newHitl := mkNewHitl actorName v (orTruthy notes "") ts
            let doc2 := patchLogDoc doc newHitl ts
            if env.s3PutOk = false then
              { response := errorResponse 500 "Failed to apply verdict"
              , trace := [.ddbGet id, .ddbUpdate id, .s3Get b k, .s3Put b k]
              , queueWrite := some qw, s3Write := none, feedbackWrite := none }
            else
              let fb := mkFeedback item v actorName ts
              { response := okResponse true (some (b, k))
              , trace := [.ddbGet id, .ddbUpdate id, .s3Get b k, .s3Put b k
                         , .ddbPutFeedback]
              , queueWrite := some qw, s3Write := some (b, k, doc2)
              , feedbackWrite := if env.feedbackOk then some fb else none }
        else
          let fb := mkFeedback item v actorName ts
          { response := okResponse false none
          , trace := [.ddbGet id, .ddbUpdate id, .ddbPutFeedback]
          , queueWrite := some qw, s3Write := none
          , feedbackWrite := if env.feedbackOk then some fb else none }

/-! ## Pending-queue listing with enrichment (`GET /api/hitl/pending`,
part_006 lines 265-361) -/

/-- Enrichment of one pending queue item (the body of the `items.map`
callback, lines 282-346).  `item` is the raw DynamoDB item as a JSON object;
`fetch` is the outcome of the S3 `getObject` plus `JSON.parse` for this item
(`Except.error` models the whole `try` block throwing).  An item with no
truthy log key (the bucket falls back to the metrics bucket) is returned as
is; a failed fetch returns the item with only the `s3_bucket`/`s3_key`
back-reference added. -/
def enrichOne (metricsBucket : String) (fetch : Except Unit JVal)
    (item : JVal) : JVal :=
  let logBucket := jsOr (getF item "log_bucket") (.str metricsBucket)
  let logKey := getF item "log_key"
  if !(truthy logBucket) || !(truthy logKey) then item
  else
    match fetch with
    | .error _ =>
      setFields item [("s3_bucket", logBucket), ("s3_key", logKey)]
    | .ok doc =>
      let bodyPreview := extractBodyPreview doc
      let reasoningText := extractReasoning doc
      let fromAddr :=
        jsOr (jsOr (getF (getF (getF doc "compact") "from") "addr")
                   (getF item "from_addr"))
             (.str "unknown")
      let toAddr := jsOr (getF (getF doc "compact") "to") (.str "unknown")
      let subject :=
        jsOr (jsOr (getF (getF doc "compact") "subject") (getF item "subject"))
             (.str "(no subject)")
      let classification :=
        jsOr (getF (getF doc "summary") "classification") (.str "unknown")
      let confidence :=
        match getF (getF doc "summary") "confidence" with
        | .num q => JVal.num q
        | _ => JVal.null
      let hitlStatus :=
        jsOr (jsOr (getF (getF doc "hitl") "status")
                   (getF (getF (getF doc "decision_agent") "hitl") "status"))
             (getF item "status")
      setFields item
        [ ("sender", fromAddr)
        , ("recipient", toAddr)
        , ("subject", subject)
        , ("classification", classification)
        , ("confidence", confidence)
        , ("hitl_status", hitlStatus)
        , ("body_preview", bodyPreview)
        , ("body_sanitized", bodyPreview)
        , ("sanitizedBody", bodyPreview)
        , ("reasoning", reasoningText)
        , ("ai_notes", reasoningText)
        , ("log_compact", jsOr (getF doc "compact") .null)
        , ("log_summary", jsOr (getF doc "summary") .null)
        , ("log_decision", jsOr (getF doc "decision") .null)
        , ("log_hitl", jsOr (jsOr (getF doc "hitl")
                                  (getF (getF doc "decision_agent") "hitl"))
                            .null)
        , ("s3_bucket", logBucket)
        , ("s3_key", logKey) ]

/-- The enriched pending listing: per-item independent enrichment over the
scanned items, in scan order (`Promise.all(items.map(...))`); `fetch` gives
each item's S3 fetch outcome. -/
def listPending (metricsBucket : String) (fetch : JVal → Except Unit JVal)
    (items : List JVal) : List JVal :=
  items.map (fun it => enrichOne metricsBucket (fetch it) it)

/-! ## Specification-side characterizations and concrete inputs -/

/-- Number of resolved queue rows (specification wording). -/
def resolvedCount (items : List QueueRow) : Nat :=
  (items.filter (fun i => i.status = "resolved")).length

/-- The positive review duration of a row: `resolved_ts - created_ts` when
both timestamps are valid and the difference is positive, else 0. -/
def posDuration (i : QueueRow) : Int :=
  match i.resolved_ts, i.created_ts with
  | some r, some c => if r - c > 0 then r - c else 0
  | _, _ => 0

/-- Sum of positive review durations over the resolved rows. -/
def sumPosDur (items : List QueueRow) : Int :=
  ((items.filter (fun i => i.status = "resolved")).map posDuration).sum

/-- A resolved row whose machine decision ALLOW agrees with the human verdict
allow (timestamps absent). -/
def allowAgreeRow : QueueRow :=
  { status := "resolved", decision := some "ALLOW", verdict := some "allow"
  , created_ts := none, resolved_ts := none }

/-- A resolved row whose machine decision was IT_REVIEW (not a prediction to
score). -/
def itReviewRow : QueueRow :=
  { status := "resolved", decision := some "IT_REVIEW", verdict := some "allow"
  , created_ts := none, resolved_ts := none }

/-- Ten resolved rows: seven agreeing ALLOW/allow and three IT_REVIEW. -/
def c2Items : List QueueRow :=
  List.replicate 7 allowAgreeRow ++ List.replicate 3 itReviewRow

/-- A resolved row reviewed in 10 seconds. -/
def timedRow : QueueRow :=
  { status := "resolved", decision := none, verdict := none
  , created_ts := some 0, resolved_ts := some 10 }

/-- A resolved row with no timestamps. -/
def untimedRow : QueueRow :=
  { status := "resolved", decision := none, verdict := none
  , created_ts := none, resolved_ts := none }

/-- Two resolved rows, only one carrying valid timestamps. -/
def c4Items : List QueueRow := [timedRow, untimedRow]

/-- A decision record carrying a decision-agent PHI signal of 3 and a
top-level `phi_entities` of 0 (and no `phi.entities_detected`). -/
def c3Record : JVal :=
  .obj [ ("decision_agent", .obj [("signals", .obj [("phi_entities", .num 3)])])
       , ("phi_entities", .num 0) ]

/-- A queue item carrying a decision-log back-reference. -/
def c1Item : QueueItem :=
  { id := "q1", log_bucket := some "logs", log_key := some "runs/2025/11/21/a.json"
  , from_addr := some "nurse@clinic.org", fromField := none
  , from_domain := none, run_id := some "r1" }

/-- An environment where the queue read and update succeed but the
decision-log fetch of step 3 throws. -/
def c1Env : VerdictEnv :=
  { queueGet := .ok (some c1Item), queueUpdateOk := true
  , s3GetDoc := .error (), s3PutOk := true, feedbackOk := true }

/-- The outcome of the verdict endpoint in environment `c1Env`. -/
def c1Outcome : VerdictOutcome :=
  postVerdict c1Env "q1" (some "allow") (some "alice") (some "ok") "T1"

/-- An environment where every store call succeeds and the queue item is
`c1Item`. -/
def c10Env : VerdictEnv :=
  { queueGet := .ok (some c1Item), queueUpdateOk := true
  , s3GetDoc := .ok (.obj [("decision", .str "IT_REVIEW")]), s3PutOk := true
  , feedbackOk := true }

/-- An arbitrary store environment (used where the endpoint must not touch
the stores at all). -/
def c7Env : VerdictEnv :=
  { queueGet := .ok none, queueUpdateOk := true, s3GetDoc := .error ()
  , s3PutOk := false, feedbackOk := false }

/-- A pending queue item with no `log_key` attribute. -/
def c6ItemNoKey : JVal :=
  .obj [("id", .str "p1"), ("status", .str "pending")]

/-- A pending queue item whose log reference points at a missing object. -/
def c6ItemBadKey : JVal :=
  .obj [ ("id", .str "p2"), ("status", .str "pending")
       , ("log_bucket", .str "logs"), ("log_key", .str "runs/missing.json") ]

/-- A decision record with business fields, a decision-agent copy of `hitl`,
and a `queue` sub-object, for exercising the log patch. -/
def c9Doc : JVal :=
  .obj [ ("decision", .str "IT_REVIEW")
       , ("summary", .obj [("classification", .str "phishing")])
       , ("compact", .obj [("subject", .str "hello")])
       , ("decision_agent", .obj [ ("risk", .num 7)
                                 , ("hitl", .obj [("status", .str "required")]) ])
       , ("queue", .obj [("status", .str "pending"), ("enqueued_ts", .str "T0")]) ]

/-! ## Lemmas about object reads and writes -/

theorem getA_setA_self (fs : List (String × JVal)) (k : String) (v : JVal) :
    getA (setA fs k v) k = v := by
  induction fs with
  | nil => simp [setA, getA]
  | cons hd tl ih =>
      obtain ⟨k₀, v₀⟩ := hd
      by_cases h : k₀ = k
      · simp [setA, h, getA]
      · simp [setA, h, getA, ih]

theorem getA_setA_ne (fs : List (String × JVal)) (k k' : String) (v : JVal)
    (h : k' ≠ k) : getA (setA fs k v) k' = getA fs k' := by
  induction fs with
  | nil => simp [setA, getA, Ne.symm h]
  | cons hd tl ih =>
      obtain ⟨k₀, v₀⟩ := hd
      by_cases h0 : k₀ = k
      · subst h0; simp [setA, getA, Ne.symm h]
      · by_cases h1 : k₀ = k' <;> simp [setA, getA, h0, h1, h, ih]

theorem getF_setF_ne (j : JVal) (k k' : String) (v : JVal) (h : k' ≠ k) :
    getF (setF j k v) k' = getF j k' := by
  cases j <;> simp [setF, getF, getA_setA_ne _ _ _ _ h]

theorem getF_setF_self (fs : List (String × JVal)) (k : String) (v : JVal) :
    getF (setF (.obj fs) k v) k = v := by
  simp [setF, getF, getA_setA_self]

theorem getF_of_falsy (v : JVal) (k : String) (h : truthy v = false) :
    getF v k = .undefined := by
  cases v <;> simp_all [truthy, getF]

theorem getF_undefined (k : String) : getF .undefined k = .undefined := rfl

theorem isObjB_setF (j : JVal) (k : String) (v : JVal) :
    isObjB (setF j k v) = isObjB j := by
  cases j <;> rfl

/-! ## C8: the reasoning extractor is first-match-wins over the candidate
order -/

theorem reasoningTail_spec (doc : JVal) :
    reasoningTail doc = reasoningOut (firstSome [cand5 doc, cand6 doc]) := by
  unfold reasoningTail cand5 cand6
  cases h5 : getF doc "explanation" <;>
    cases h6 : getF doc "decision_reasons" <;>
      simp [h5, h6, strCand, joinCand, firstSome, reasoningOut]

theorem reasoningFrom4_spec (doc : JVal) :
    reasoningFrom4 doc =
      reasoningOut (firstSome [cand4 doc, cand5 doc, cand6 doc]) := by
  unfold reasoningFrom4 cand4
  cases hda : truthy (getF doc "decision_agent")
  · have hu : ∀ k, getF (getF doc "decision_agent") k = .undefined :=
      fun k => getF_of_falsy _ k hda
    simp [hu, strCand, joinCand, firstSome, reasoningTail_spec]
  · simp only [hda, if_true]
    cases hr : getF (getF doc "decision_agent") "reasoning" <;>
      cases he : getF (getF doc "decision_agent") "explanation" <;>
        cases hx : getF (getF doc "decision_agent") "reasons" <;>
          simp [hr, he, hx, strCand, joinCand, firstSome, reasoningOut,
                reasoningTail_spec]

theorem reasoningFrom3_spec (doc : JVal) :
    reasoningFrom3 doc =
      reasoningOut (firstSome [cand3 doc, cand4 doc, cand5 doc, cand6 doc]) := by
  unfold reasoningFrom3 cand3
  cases hs : truthy (getF doc "summary")
  · have hu : ∀ k, getF (getF doc "summary") k = .undefined :=
      fun k => getF_of_falsy _ k hs
    simp [hu, strCand, firstSome, reasoningFrom4_spec]
  · simp only [hs, if_true]
    cases hr : getF (getF doc "summary") "reasoning" <;>
      simp [hr, strCand, firstSome, reasoningFrom4_spec, reasoningOut]

theorem reasoningFrom2_spec (doc : JVal) :
    reasoningFrom2 doc =
      reasoningOut
        (firstSome [cand2 doc, cand3 doc, cand4 doc, cand5 doc, cand6 doc]) := by
  unfold reasoningFrom2 cand2
  cases hr : getF doc "reasoning" <;>
    simp [hr, strCand, joinCand, firstSome, reasoningFrom3_spec, reasoningOut]

/-- C8: for every decision record, the extracted reasoning text is the first
present value of the candidate order — (1) the `reasoning` field of the first
content-notes element (blank-line-joined when a list), (2) top-level
`reasoning` (string or joined list), (3) `summary.reasoning`, (4)
decision-agent `reasoning`, then `explanation`, then joined `reasons`, (5)
top-level `explanation`, (6) the legacy joined `decision_reasons` list — and
null (not an error) when no candidate is present. -/
theorem extract_reasoning_first_match (doc : JVal) :
    extractReasoning doc = reasoningOut (reasoningSpec doc) := by
  unfold extractReasoning reasoningSpec cand1
  cases hd : truthy doc
  · have hu : ∀ k, getF doc k = .undefined := fun k => getF_of_falsy _ k hd
    simp [hu, getF_undefined, strCand, joinCand, firstSome, reasoningOut, cand2,
          cand3, cand4, cand5, cand6]
  · cases hc : truthy (getF doc "content")
    · have hu : ∀ k, getF (getF doc "content") k = .undefined :=
        fun k => getF_of_falsy _ k hc
      simp [hu, firstSome, reasoningFrom2_spec]
    · simp only [hd, hc, if_true, Bool.false_eq_true, if_false]
      cases hn : getF (getF doc "content") "notes" with
      | arr ns =>
        cases ns with
        | nil => simp [hn, firstSome, reasoningFrom2_spec]
        | cons n rest =>
          cases hr : getF n "reasoning" <;>
            simp [hn, hr, strCand, joinCand, firstSome, reasoningFrom2_spec,
                  reasoningOut]
      | _ => simp [hn, firstSome, reasoningFrom2_spec]

/-! ## C2/C4: the stats engine's derived metrics -/

theorem statsStep_resolved_fields (today : Int) (acc : StatsAcc)
    (i : QueueRow) :
    (statsStep today acc i).totalResolved =
      acc.totalResolved + (if i.status = "resolved" then 1 else 0) ∧
    (statsStep today acc i).totalDurationSec =
      acc.totalDurationSec +
        (if i.status = "resolved" then posDuration i else 0) := by
  unfold statsStep
  by_cases hp : i.status = "pending"
  · have hnr : ¬ i.status = "resolved" := by rw [hp]; decide
    simp [hp, hnr]
  · simp only [if_neg hp]
    by_cases hr : i.status = "resolved"
    · rcases hrts : i.resolved_ts with _ | rts <;>
        rcases hcts : i.created_ts with _ | cts <;>
          simp [hr, hrts, hcts, posDuration] <;>
            split_ifs <;> simp_all
    · have hb : (i.status != "resolved") = true := by
        simp [bne_iff_ne, hr]
      simp [hr, hb]

theorem foldl_stats_resolved (today : Int) (items : List QueueRow)
    (acc : StatsAcc) :
    ((items.foldl (statsStep today) acc).totalResolved =
       acc.totalResolved + resolvedCount items) ∧
    ((items.foldl (statsStep today) acc).totalDurationSec =
       acc.totalDurationSec + sumPosDur items) := by
  induction items generalizing acc with
  | nil => simp [resolvedCount, sumPosDur]
  | cons i tl ih =>
    have h := statsStep_resolved_fields today acc i
    have ihh := ih (statsStep today acc i)
    refine ⟨?_, ?_⟩ <;>
      by_cases hi : i.status = "resolved" <;>
        simp [resolvedCount, sumPosDur, List.filter_cons, hi, h.1, h.2,
              ihh.1, ihh.2] <;> omega

/-- C2 (exhibiting the code bug): with seven resolved rows whose machine
decision ALLOW agrees with the human verdict allow and three resolved rows
whose machine decision was IT_REVIEW, the stats endpoint computes accuracy
7/10 = 0.7 — the IT_REVIEW rows are counted in the denominator — whereas the
claim (and the code's own comment) prescribe 7/7 = 1.0. -/
theorem stats_accuracy_counts_it_review_in_denominator :
    (hitlStats 0 c2Items).accuracy = 7 / 10 ∧ (7 / 10 : Rat) ≠ 1 := by
  have hA : (List.foldl (statsStep 0) statsAccInit c2Items).agreements = 7 := by
    decide
  have hR : (List.foldl (statsStep 0) statsAccInit c2Items).totalResolved = 10 := by
    decide
  constructor
  · simp [hitlStats, hA, hR]
  · norm_num

/-- C4 counterexample: with one resolved row reviewed in 10 seconds and one
resolved row lacking timestamps, the stats endpoint returns
avgTimeSeconds = 10/2 = 5 — not the mean 10 over exactly the resolved rows
with both timestamps valid, as the claim states. -/
theorem stats_avg_time_counterexample :
    (hitlStats 0 c4Items).avgTimeSeconds = 5 ∧ (5 : Rat) ≠ 10 := by
  have hD :
      (List.foldl (statsStep 0) statsAccInit c4Items).totalDurationSec = 10 := by
    decide
  have hR : (List.foldl (statsStep 0) statsAccInit c4Items).totalResolved = 2 := by
    decide
  constructor
  · simp [hitlStats, hD, hR]
    norm_num
  · norm_num

/-- C4 (amended): avgTimeSeconds equals the sum of the positive durations of
the resolved rows with both timestamps valid, divided by the number of all
resolved rows (rows with missing or invalid timestamps still count in the
denominator), and 0 when there are no resolved rows. -/
theorem stats_avg_time_divides_by_total_resolved (today : Int)
    (items : List QueueRow) :
    (hitlStats today items).avgTimeSeconds =
      (if resolvedCount items ≠ 0 then
         (sumPosDur items : Rat) / (resolvedCount items : Rat)
       else 0) := by
  have h := foldl_stats_resolved today items statsAccInit
  have h0 : statsAccInit.totalResolved = 0 := rfl
  have h0' : statsAccInit.totalDurationSec = 0 := rfl
  rw [h0, Nat.zero_add] at h
  rw [h0', Int.zero_add] at h
  simp [hitlStats, h.1, h.2, Nat.pos_iff_ne_zero]

/-! ## C3: the history endpoint's PHI-entity resolution -/

/-- C3 counterexample: on a record carrying a decision-agent PHI signal of 3
and a top-level `phi_entities` of 0, the history endpoint resolves the PHI
count to 0, not to 3 as the claimed candidate order would. -/
theorem history_phi_ignores_agent_signal :
    phiEntities c3Record = .num 0 ∧ JVal.num 0 ≠ JVal.num 3 := by
  refine ⟨rfl, ?_⟩
  intro h
  injection h with h'
  norm_num at h'

/-- C3 (amended): the history endpoint resolves the PHI-entity count from
`phi.entities_detected` alone — the value itself when truthy, else 0; the
decision-agent signal and the top-level `phi_entities` field are never
consulted (overwriting either leaves the result unchanged), so the record
with an agent signal of 3 and top-level 0 resolves to 0. -/
theorem history_phi_entities_flat_resolution :
    (∀ body : JVal, phiEntities body =
       (if truthy (getF (getF body "phi") "entities_detected") then
          getF (getF body "phi") "entities_detected"
        else .num 0)) ∧
    (∀ body v : JVal,
       phiEntities (setF body "phi_entities" v) = phiEntities body) ∧
    (∀ body v : JVal,
       phiEntities (setF body "decision_agent" v) = phiEntities body) ∧
    phiEntities c3Record = .num 0 := by
  refine ⟨fun body => rfl, ?_, ?_, rfl⟩
  · intro body v
    unfold phiEntities
    rw [getF_setF_ne _ _ _ _ (by decide)]
  · intro body v
    unfold phiEntities
    rw [getF_setF_ne _ _ _ _ (by decide)]

/-! ## C5: metrics over an empty window -/

theorem windowDaysList_nodup (w : Nat) (now : Int) :
    (windowDaysList w now).Nodup := by
  unfold windowDaysList
  exact List.Nodup.map (fun a b hab => by omega)
    (List.nodup_reverse.mpr (List.nodup_range w))

theorem mem_windowDaysList (w : Nat) (now d : Int) :
    d ∈ windowDaysList w now ↔ now - w + 1 ≤ d ∧ d ≤ now := by
  unfold windowDaysList
  simp only [List.mem_map, List.mem_reverse, List.mem_range]
  constructor
  · rintro ⟨i, hi, rfl⟩
    omega
  · rintro ⟨hle, hge⟩
    refine ⟨(now - d).toNat, ?_, ?_⟩ <;> omega

theorem windowDaysList_length (w : Nat) (now : Int) :
    (windowDaysList w now).length = w := by
  simp [windowDaysList]

theorem map_pair_zero_snd (l : List Int) :
    ((l.map (fun d => ((d, 0) : Int × Nat))).map Prod.snd) =
      List.replicate l.length 0 := by
  induction l with
  | nil => rfl
  | cons a tl ih => simp [List.replicate_succ, ih]

theorem map_pair_zero_fst (l : List Int) :
    ((l.map (fun d => ((d, 0) : Int × Nat))).map Prod.fst) = l := by
  induction l with
  | nil => rfl
  | cons a tl ih => simp [ih]

/-- C5: a metrics request whose lookback window contains zero matching
decision-log objects yields total 0 and avgElapsed 0 (no division-by-zero
fault), and its trend holds exactly one zero-count entry per UTC calendar day
of the window. -/
theorem metrics_empty_window_zeroes (parseDay : String → Option Int)
    (windowDays : Nat) (now : Int) :
    (apiMetrics parseDay windowDays now []).total = 0 ∧
    (apiMetrics parseDay windowDays now []).avgElapsed = 0 ∧
    ((apiMetrics parseDay windowDays now []).trend).map Prod.snd =
      List.replicate windowDays 0 ∧
    (((apiMetrics parseDay windowDays now []).trend).map Prod.fst).Nodup ∧
    (∀ d : Int,
       d ∈ ((apiMetrics parseDay windowDays now []).trend).map Prod.fst ↔
         now - windowDays + 1 ≤ d ∧ d ≤ now) := by
  have htrend : (apiMetrics parseDay windowDays now []).trend =
      (windowDaysList windowDays now).map (fun d => (d, 0)) := rfl
  refine ⟨rfl, rfl, ?_, ?_, ?_⟩
  · rw [htrend, map_pair_zero_snd, windowDaysList_length]
  · rw [htrend, map_pair_zero_fst]
    exact windowDaysList_nodup windowDays now
  · intro d
    rw [htrend, map_pair_zero_fst]
    exact mem_windowDaysList windowDays now d

/-! ## C7: invalid verdict tokens -/

/-- C7: for every verdict token outside allow/block (including an absent
token), the verdict endpoint returns HTTP 400 with success false and attempts
no store operation: the trace is empty and no queue, log, or feedback write
occurs. -/
theorem verdict_invalid_token_no_store_ops (env : VerdictEnv) (id : String)
    (verdict actor notes : Option String) (ts : String)
    (h1 : verdict ≠ some "allow") (h2 : verdict ≠ some "block") :
    (postVerdict env id verdict actor notes ts).response.httpStatus = 400 ∧
    (postVerdict env id verdict actor notes ts).response.success = false ∧
    (postVerdict env id verdict actor notes ts).trace = [] ∧
    (postVerdict env id verdict actor notes ts).queueWrite = none ∧
    (postVerdict env id verdict actor notes ts).s3Write = none ∧
    (postVerdict env id verdict actor notes ts).feedbackWrite = none := by
  have hcond : allowOrBlock verdict = false := by
    simp [allowOrBlock, h1, h2]
  simp [postVerdict, hcond, errorResponse]

theorem verdict_invalid_token_no_store_ops_witness :
    (postVerdict c7Env "q9" (some "maybe") none none "T0").response.httpStatus
        = 400 ∧
    (postVerdict c7Env "q9" (some "maybe") none none "T0").trace = [] ∧
    (postVerdict c7Env "q9" (some "maybe") none none "T0").queueWrite = none := by
  have h := verdict_invalid_token_no_store_ops c7Env "q9" (some "maybe")
    none none "T0" (by decide) (by decide)
  exact ⟨h.1, h.2.2.1, h.2.2.2.1⟩

/-! ## C1: failure of the log patch after a committed queue update -/

/-- C1 counterexample: in an environment where the queue read and update
succeed but the decision-log fetch of step 3 throws, the endpoint responds
HTTP 500 with success false — not a success response with s3Updated false as
the claim states — while the step-2 queue write stands. -/
theorem verdict_s3_failure_counterexample :
    c1Outcome.response.success = false ∧
    c1Outcome.response.httpStatus = 500 ∧
    c1Outcome.queueWrite =
      some { id := "q1", status := "resolved", verdict := "allow"
           , actor := "alice", notes := "ok", resolved_ts := "T1" } :=
  ⟨rfl, rfl, rfl⟩

/-- C1 (amended): for every call with a valid verdict on an existing queue
item carrying a log reference, if the step-2 queue update succeeds and step 3
fails (the log fetch or the write-back throws), the queue update is not
rolled back — the item stays resolved — but the response is an HTTP 500
failure with success false; a success response with `s3Updated: false` arises
only when the item has no log reference, not on log-patch failure. -/
theorem verdict_s3_failure_500_queue_not_rolled_back
    (env : VerdictEnv) (id : String) (verdict actor notes : Option String)
    (ts : String) (item : QueueItem)
    (hv : verdict = some "allow" ∨ verdict = some "block")
    (hget : env.queueGet = .ok (some item))
    (hupd : env.queueUpdateOk = true)
    (hb : strTruthy item.log_bucket = true)
    (hk : strTruthy item.log_key = true)
    (hfail : env.s3GetDoc = .error () ∨ env.s3PutOk = false) :
    (postVerdict env id verdict actor notes ts).response.httpStatus = 500 ∧
    (postVerdict env id verdict actor notes ts).response.success = false ∧
    (postVerdict env id verdict actor notes ts).queueWrite =
      some { id := id, status := "resolved", verdict := verdict.getD ""
           , actor := orTruthy actor "unknown", notes := orTruthy notes ""
           , resolved_ts := ts } ∧
    (postVerdict env id verdict actor notes ts).s3Write = none := by
  have hval : (!(strTruthy verdict) || !(allowOrBlock verdict)) = false := by
    rcases hv with h | h <;> subst h <;> rfl
  rcases hfail with hf | hf
  · simp [postVerdict, hval, hget, hupd, hb, hk, hf, errorResponse]
  · cases hs : env.s3GetDoc with
    | error e =>
        simp [postVerdict, hval, hget, hupd, hb, hk, hs, errorResponse]
    | ok doc =>
        simp [postVerdict, hval, hget, hupd, hb, hk, hs, hf, errorResponse]

theorem verdict_s3_failure_500_queue_not_rolled_back_witness :
    (postVerdict c1Env "q1" (some "allow") (some "alice") (some "ok")
        "T1").response.httpStatus = 500 ∧
    (postVerdict c1Env "q1" (some "allow") (some "alice") (some "ok")
        "T1").response.success = false ∧
    (postVerdict c1Env "q1" (some "allow") (some "alice") (some "ok")
        "T1").queueWrite =
      some { id := "q1", status := "resolved", verdict := "allow"
           , actor := "alice", notes := "ok", resolved_ts := "T1" } ∧
    (postVerdict c1Env "q1" (some "allow") (some "alice") (some "ok")
        "T1").s3Write = none :=
  verdict_s3_failure_500_queue_not_rolled_back c1Env "q1" (some "allow")
    (some "alice") (some "ok") "T1" c1Item (Or.inl rfl) rfl rfl rfl rfl
    (Or.inl rfl)

/-! ## C6: enrichment failures never drop pending items -/

/-- C6: the pending listing maps every scanned item, in scan order, to its
independently enriched form — the listing length and positions are preserved.
An item with no truthy log key is returned exactly as it was, and an item
whose log fetch throws keeps every original field (only the
`s3_bucket`/`s3_key` back-reference is attached). -/
theorem pending_enrichment_never_drops_items
    (metricsBucket : String) (fetch : JVal → Except Unit JVal)
    (items : List JVal) :
    (listPending metricsBucket fetch items).length = items.length ∧
    (∀ i : Nat, (listPending metricsBucket fetch items)[i]? =
       (items[i]?).map (fun it => enrichOne metricsBucket (fetch it) it)) ∧
    (∀ item, truthy (getF item "log_key") = false →
       enrichOne metricsBucket (fetch item) item = item) ∧
    (∀ item, fetch item = .error () →
       ∀ k, k ≠ "s3_bucket" → k ≠ "s3_key" →
         getF (enrichOne metricsBucket (fetch item) item) k = getF item k) := by
  refine ⟨by simp [listPending], ?_, ?_, ?_⟩
  · intro i
    simp [listPending]
  · intro item hk
    unfold enrichOne
    simp [hk]
  · intro item hf k hk1 hk2
    unfold enrichOne
    simp only [hf]
    by_cases hcond : (!truthy (jsOr (getF item "log_bucket")
        (JVal.str metricsBucket)) || !truthy (getF item "log_key")) = true
    · rw [if_pos hcond]
    · rw [if_neg hcond]
      simp only [setFields, List.foldl_cons, List.foldl_nil]
      rw [getF_setF_ne _ _ _ _ hk2, getF_setF_ne _ _ _ _ hk1]

theorem pending_enrichment_never_drops_items_witness :
    (listPending "B" (fun _ => Except.error ()) [c6ItemNoKey, c6ItemBadKey]).length
        = 2 ∧
    enrichOne "B" (Except.error ()) c6ItemNoKey = c6ItemNoKey ∧
    getF (enrichOne "B" (Except.error ()) c6ItemBadKey) "status" =
      getF c6ItemBadKey "status" := by
  obtain ⟨h1, h2, h3, h4⟩ := pending_enrichment_never_drops_items "B"
    (fun _ => Except.error ()) [c6ItemNoKey, c6ItemBadKey]
  exact ⟨h1, h3 c6ItemNoKey (by decide),
         h4 c6ItemBadKey rfl "status" (by decide) (by decide)⟩

/-! ## C9: the log patch touches only the hitl and queue sub-objects -/

theorem isObjB_of_truthy_getF (v : JVal) (k : String)
    (h : truthy (getF v k) = true) : isObjB v = true := by
  cases v <;> simp_all [getF, truthy, isObjB]

theorem getF_setF_self_of_isObj (j : JVal) (k : String) (v : JVal)
    (h : isObjB j = true) : getF (setF j k v) k = v := by
  cases j <;> simp_all [isObjB, setF, getF, getA_setA_self]

theorem patchLogDoc_getF_top (doc newHitl : JVal) (ts : String) (k : String)
    (hk1 : k ≠ "hitl") (hk2 : k ≠ "queue") (hk3 : k ≠ "decision_agent") :
    getF (patchLogDoc doc newHitl ts) k = getF doc k := by
  simp only [patchLogDoc]
  rw [getF_setF_ne _ _ _ _ hk2]
  split
  · rw [getF_setF_ne _ _ _ _ hk3, getF_setF_ne _ _ _ _ hk1]
  · rw [getF_setF_ne _ _ _ _ hk1]

theorem patchLogDoc_getF_hitl (doc newHitl : JVal) (ts : String)
    (h : isObjB doc = true) :
    getF (patchLogDoc doc newHitl ts) "hitl" = newHitl := by
  simp only [patchLogDoc]
  rw [getF_setF_ne _ "queue" "hitl" _ (by decide)]
  split
  · rw [getF_setF_ne _ "decision_agent" "hitl" _ (by decide)]
    exact getF_setF_self_of_isObj _ _ _ h
  · exact getF_setF_self_of_isObj _ _ _ h

theorem patchLogDoc_getF_da (doc newHitl : JVal) (ts : String) (k : String)
    (hk : k ≠ "hitl") :
    getF (getF (patchLogDoc doc newHitl ts) "decision_agent") k =
      getF (getF doc "decision_agent") k := by
  simp only [patchLogDoc]
  rw [getF_setF_ne _ "queue" "decision_agent" _ (by decide)]
  split
  next hcond =>
    have h12 := hcond
    simp only [Bool.and_eq_true] at h12
    have hobj : isObjB (setF doc "hitl" newHitl) = true :=
      isObjB_of_truthy_getF _ _ h12.1
    rw [getF_setF_self_of_isObj _ _ _ hobj]
    rw [getF_setF_ne _ "hitl" k _ hk]
    rw [getF_setF_ne _ "hitl" "decision_agent" _ (by decide)]
  next =>
    rw [getF_setF_ne _ "hitl" "decision_agent" _ (by decide)]

theorem patchLogDoc_da_hitl (doc newHitl : JVal) (ts : String)
    (h1 : truthy (getF doc "decision_agent") = true)
    (h2 : truthy (getF (getF doc "decision_agent") "hitl") = true) :
    getF (getF (patchLogDoc doc newHitl ts) "decision_agent") "hitl" =
      newHitl := by
  have f1 : getF (setF doc "hitl" newHitl) "decision_agent" =
      getF doc "decision_agent" := getF_setF_ne _ "hitl" "decision_agent" _
        (by decide)
  simp only [patchLogDoc]
  rw [getF_setF_ne _ "queue" "decision_agent" _ (by decide)]
  rw [f1]
  split
  next hcond =>
    have hobj : isObjB (setF doc "hitl" newHitl) = true := by
      cases doc <;> simp_all [getF, truthy, isObjB, setF]
    rw [getF_setF_self_of_isObj _ _ _ hobj]
    exact getF_setF_self_of_isObj _ _ _ (isObjB_of_truthy_getF _ _ h2)
  next hcond =>
    exact absurd (by rw [h1, h2]; rfl) hcond

theorem patchLogDoc_queue_fields (doc newHitl : JVal) (ts : String)
    (hobj : isObjB doc = true)
    (hq : isObjB (jsOr (getF doc "queue") (.obj [])) = true) :
    getF (getF (patchLogDoc doc newHitl ts) "queue") "status" =
        .str "resolved" ∧
    getF (getF (patchLogDoc doc newHitl ts) "queue") "resolved_ts" =
        .str ts := by
  have fq : getF (setF doc "hitl" newHitl) "queue" = getF doc "queue" :=
    getF_setF_ne _ _ _ _ (by decide)
  simp only [patchLogDoc]
  split
  next =>
    have hobj2 : isObjB (setF (setF doc "hitl" newHitl) "decision_agent"
        (setF (getF (setF doc "hitl" newHitl) "decision_agent") "hitl"
          newHitl)) = true := by
      rw [isObjB_setF, isObjB_setF]
      exact hobj
    rw [getF_setF_self_of_isObj _ _ _ hobj2]
    rw [getF_setF_ne _ "decision_agent" "queue" _ (by decide), fq]
    have hq1 : isObjB (setF (jsOr (getF doc "queue") (.obj [])) "status"
        (.str "resolved")) = true := by
      rw [isObjB_setF]; exact hq
    constructor
    · rw [getF_setF_ne _ "resolved_ts" "status" _ (by decide)]
      exact getF_setF_self_of_isObj _ _ _ hq
    · exact getF_setF_self_of_isObj _ _ _ hq1
  next =>
    have hobj1 : isObjB (setF doc "hitl" newHitl) = true := by
      rw [isObjB_setF]; exact hobj
    rw [getF_setF_self_of_isObj _ _ _ hobj1]
    rw [fq]
    have hq1 : isObjB (setF (jsOr (getF doc "queue") (.obj [])) "status"
        (.str "resolved")) = true := by
      rw [isObjB_setF]; exact hq
    constructor
    · rw [getF_setF_ne _ "resolved_ts" "status" _ (by decide)]
      exact getF_setF_self_of_isObj _ _ _ hq
    · exact getF_setF_self_of_isObj _ _ _ hq1

/-- C9: a successful verdict log patch rewrites only the `hitl` sub-object —
at top level and, when the record already carried a (truthy) decision-agent
copy, that copy, both set to the same new object — and the `queue` sub-object;
every other top-level field (decision, summary, compact, and all the rest) and
every other decision-agent field keeps its previous value. -/
theorem patch_log_doc_frame (doc newHitl : JVal) (ts : String) :
    (∀ k, k ≠ "hitl" → k ≠ "queue" → k ≠ "decision_agent" →
       getF (patchLogDoc doc newHitl ts) k = getF doc k) ∧
    (isObjB doc = true →
       getF (patchLogDoc doc newHitl ts) "hitl" = newHitl) ∧
    (∀ k, k ≠ "hitl" →
       getF (getF (patchLogDoc doc newHitl ts) "decision_agent") k =
         getF (getF doc "decision_agent") k) ∧
    (truthy (getF doc "decision_agent") = true →
     truthy (getF (getF doc "decision_agent") "hitl") = true →
       getF (getF (patchLogDoc doc newHitl ts) "decision_agent") "hitl" =
           newHitl ∧
       getF (patchLogDoc doc newHitl ts) "hitl" = newHitl) ∧
    (isObjB doc = true →
     isObjB (jsOr (getF doc "queue") (.obj [])) = true →
       getF (getF (patchLogDoc doc newHitl ts) "queue") "status" =
           .str "resolved" ∧
       getF (getF (patchLogDoc doc newHitl ts) "queue") "resolved_ts" =
           .str ts) := by
  refine ⟨fun k h1 h2 h3 => patchLogDoc_getF_top doc newHitl ts k h1 h2 h3,
          fun h => patchLogDoc_getF_hitl doc newHitl ts h,
          fun k hk => patchLogDoc_getF_da doc newHitl ts k hk,
          fun h1 h2 => ⟨patchLogDoc_da_hitl doc newHitl ts h1 h2,
            patchLogDoc_getF_hitl doc newHitl ts
              (isObjB_of_truthy_getF _ _ h1)⟩,
          fun h1 h2 => patchLogDoc_queue_fields doc newHitl ts h1 h2⟩

theorem patch_log_doc_frame_witness :
    getF (patchLogDoc c9Doc (mkNewHitl "alice" "allow" "" "T1") "T1")
        "decision" = getF c9Doc "decision" ∧
    getF (patchLogDoc c9Doc (mkNewHitl "alice" "allow" "" "T1") "T1")
        "summary" = getF c9Doc "summary" ∧
    getF (patchLogDoc c9Doc (mkNewHitl "alice" "allow" "" "T1") "T1")
        "hitl" = mkNewHitl "alice" "allow" "" "T1" ∧
    getF (getF (patchLogDoc c9Doc (mkNewHitl "alice" "allow" "" "T1") "T1")
        "decision_agent") "risk" = getF (getF c9Doc "decision_agent") "risk" ∧
    getF (getF (patchLogDoc c9Doc (mkNewHitl "alice" "allow" "" "T1") "T1")
        "decision_agent") "hitl" = mkNewHitl "alice" "allow" "" "T1" ∧
    getF (getF (patchLogDoc c9Doc (mkNewHitl "alice" "allow" "" "T1") "T1")
        "queue") "status" = .str "resolved" := by
  obtain ⟨h1, h2, h3, h4, h5⟩ :=
    patch_log_doc_frame c9Doc (mkNewHitl "alice" "allow" "" "T1") "T1"
  exact ⟨h1 "decision" (by decide) (by decide) (by decide),
         h1 "summary" (by decide) (by decide) (by decide),
         h2 (by decide),
         h3 "risk" (by decide),
         (h4 (by decide) (by decide)).1,
         (h5 (by decide) (by decide)).1⟩

/-! ## C10: the default actor -/

/-- C10: a verdict request whose body omits the actor field, or supplies the
empty string, still resolves, recording the literal actor "unknown" in the
queue update, in the hitl sub-object of the patched log document, in the
feedback entry, and in the response. -/
theorem verdict_missing_actor_defaults_unknown
    (env : VerdictEnv) (id : String) (verdict actor notes : Option String)
    (ts : String) (item : QueueItem) (doc : JVal)
    (ha : actor = none ∨ actor = some "")
    (hv : verdict = some "allow" ∨ verdict = some "block")
    (hget : env.queueGet = .ok (some item))
    (hupd : env.queueUpdateOk = true)
    (hb : strTruthy item.log_bucket = true)
    (hk : strTruthy item.log_key = true)
    (hdoc : env.s3GetDoc = .ok doc)
    (hobj : isObjB doc = true)
    (hput : env.s3PutOk = true)
    (hfb : env.feedbackOk = true) :
    (postVerdict env id verdict actor notes ts).response.success = true ∧
    (postVerdict env id verdict actor notes ts).response.actor =
        some "unknown" ∧
    ((postVerdict env id verdict actor notes ts).queueWrite.map
        QueueUpdate.actor) = some "unknown" ∧
    ((postVerdict env id verdict actor notes ts).feedbackWrite.map
        FeedbackEntry.actor) = some "unknown" ∧
    (∃ b k d, (postVerdict env id verdict actor notes ts).s3Write =
        some (b, k, d) ∧ getF (getF d "hitl") "actor" = .str "unknown") := by
  have hu : orTruthy actor "unknown" = "unknown" := by
    rcases ha with h | h <;> subst h <;> rfl
  have hval : (!(strTruthy verdict) || !(allowOrBlock verdict)) = false := by
    rcases hv with h | h <;> subst h <;> rfl
  simp only [postVerdict, hval, Bool.false_eq_true, if_false, hget, hupd,
             hb, hk, hdoc, hput, hfb, hu, Bool.and_self, if_true, mkFeedback]
  refine ⟨rfl, rfl, rfl, rfl,
    ⟨item.log_bucket.getD "", item.log_key.getD "", _, rfl, ?_⟩⟩
  rw [patchLogDoc_getF_hitl _ _ _ hobj]
  rfl

theorem verdict_missing_actor_defaults_unknown_witness :
    (postVerdict c10Env "q1" (some "block") none (some "") "T2").response.actor
        = some "unknown" ∧
    ((postVerdict c10Env "q1" (some "block") none (some "") "T2").queueWrite.map
        QueueUpdate.actor) = some "unknown" ∧
    ((postVerdict c10Env "q1" (some "block") none (some "")
        "T2").feedbackWrite.map FeedbackEntry.actor) = some "unknown" := by
  obtain ⟨h1, h2, h3, h4, h5⟩ := verdict_missing_actor_defaults_unknown
    c10Env "q1" (some "block") none (some "") "T2" c1Item
    (.obj [("decision", .str "IT_REVIEW")]) (Or.inl rfl) (Or.inr rfl)
    rfl rfl rfl rfl rfl rfl rfl rfl
  exact ⟨h2, h3, h4⟩

end EmailDefense
